import Mathlib

/-!
A shallow embedding of `create_word_doc.py`: a linear document-assembly
script that builds a fixed Word document (headings, paragraphs, styled
runs, bullet and number lists, one table, page breaks) with python-docx
and saves it to a hard-coded path, printing two confirmation lines.

The document state is a list of appended block elements (stored most
recent first in `rev`, each block carrying the sequence number `bid` it
was assigned when appended), together with the mutable map of named
styles (python-docx paragraph styles are shared objects: assigning to
`para.style.font.name` mutates the named style that the paragraph
references, not the paragraph alone).

The script is embedded as the list `scriptOps` of primitive operations,
transcribed from the source top to bottom (python for-loops over literal
lists become maps over the same literal lists), interpreted by `applyOp`.
-/

/-- Character-level font attributes (python-docx `Font`): unset attributes
inherit, which we model with `none`. -/
structure Font where
  name : Option String := none
  size : Option Nat := none
  bold : Option Bool := none
  italic : Option Bool := none
  color : Option (Nat × Nat × Nat) := none

/-- A styled text span within a paragraph (python-docx `Run`). -/
structure Run where
  text : String
  font : Font

/-- Paragraph alignment; the script only ever uses CENTER. -/
inductive Align where
  | center

/-- The block-level elements the script appends: headings, paragraphs
(with a named style and a run list), the one table, and page breaks. -/
inductive BlockBody where
  | heading (text : String) (level : Nat)
  | para (styleName : String) (runs : List Run) (alignment : Option Align)
  | table (styleName : Option String) (cells : List (List String))
  | pageBreak

/-- A block element together with the sequence number it received when it
was appended to the document. -/
structure Block where
  bid : Nat
  body : BlockBody

/-- The in-progress document: appended blocks most recent first, the named
style map, and the next append sequence number. -/
structure DocState where
  rev : List Block
  styles : String → Font
  nextId : Nat

/-- The primitive side-effecting operations the script performs against the
document object, in the vocabulary of the python-docx calls it makes. -/
inductive Op where
  | setStyleFontName (styleName fontName : String)
  | setStyleFontSize (styleName : String) (pts : Nat)
  | addHeading (text : String) (level : Nat)
  | addParagraph (text : String) (styleName : Option String)
  | addRun (text : String)
  | setLastRunBold (v : Bool)
  | setLastRunItalic (v : Bool)
  | setLastRunSize (pts : Nat)
  | setLastRunColor (r g b : Nat)
  | setLastParaAlignment (a : Align)
  | setLastParaStyleFontName (fontName : String)
  | addTable (rows cols : Nat)
  | setTableStyle (styleName : String)
  | setCellText (r c : Nat) (text : String)
  | addPageBreak

/-- Modify the most recently appended block, leaving the rest alone. -/
def mapHead (f : Block → Block) : List Block → List Block
  | [] => []
  | b :: bs => f b :: bs

/-- Append a fresh block, stamping it with the next sequence number. -/
def pushBlock (s : DocState) (body : BlockBody) : DocState :=
  { s with rev := { bid := s.nextId, body := body } :: s.rev, nextId := s.nextId + 1 }

/-- Modify the body of the most recently appended block in place (its
sequence number is kept). -/
def mapHeadBody (s : DocState) (f : BlockBody → BlockBody) : DocState :=
  { s with rev := mapHead (fun b => { b with body := f b.body }) s.rev }

/-- Update one named style in the style map. -/
def updStyle (styles : String → Font) (styleName : String) (f : Font → Font) :
    String → Font :=
  fun n => if n = styleName then f (styles n) else styles n

/-- Modify the last run of a run list (python keeps a reference to the run
it just added and sets attributes on it). -/
def updateLastRun (f : Run → Run) : List Run → List Run
  | [] => []
  | [r] => [f r]
  | r :: r2 :: rs => r :: updateLastRun f (r2 :: rs)

/-- Lift a last-run modification to a block body (only paragraphs have runs). -/
def mapLastRunBody (f : Run → Run) : BlockBody → BlockBody
  | .para st runs al => .para st (updateLastRun f runs) al
  | b => b

/-- One step of the script: interpret a primitive operation on the document.
`add_paragraph(text, style)` appends a run only when the text is nonempty,
and an omitted style means the built-in Normal style; assigning to
`para.style.font.name` mutates the named style the last paragraph uses. -/
def applyOp (s : DocState) : Op → DocState
  | .setStyleFontName st fn =>
      { s with styles := updStyle s.styles st (fun f => { f with name := some fn }) }
  | .setStyleFontSize st pts =>
      { s with styles := updStyle s.styles st (fun f => { f with size := some pts }) }
  | .addHeading t lvl => pushBlock s (.heading t lvl)
  | .addParagraph t st =>
      pushBlock s (.para (st.getD "Normal")
        (if t = "" then [] else [{ text := t, font := {} }]) none)
  | .addRun t =>
      mapHeadBody s fun b => match b with
        | .para st runs al => .para st (runs ++ [{ text := t, font := {} }]) al
        | b => b
  | .setLastRunBold v =>
      mapHeadBody s (mapLastRunBody fun r => { r with font := { r.font with bold := some v } })
  | .setLastRunItalic v =>
      mapHeadBody s (mapLastRunBody fun r => { r with font := { r.font with italic := some v } })
  | .setLastRunSize pts =>
      mapHeadBody s (mapLastRunBody fun r => { r with font := { r.font with size := some pts } })
  | .setLastRunColor rr gg bb =>
      mapHeadBody s (mapLastRunBody fun r => { r with font := { r.font with color := some (rr, gg, bb) } })
  | .setLastParaAlignment a =>
      mapHeadBody s fun b => match b with
        | .para st runs _ => .para st runs (some a)
        | b => b
  | .setLastParaStyleFontName fn =>
      match s.rev with
      | b :: _ =>
          match b.body with
          | .para st _ _ =>
              { s with styles := updStyle s.styles st (fun f => { f with name := some fn }) }
          | _ => s
      | [] => s
  | .addTable rows cols =>
      pushBlock s (.table none (List.replicate rows (List.replicate cols "")))
  | .setTableStyle st =>
      mapHeadBody s fun b => match b with
        | .table _ cells => .table (some st) cells
        | b => b
  | .setCellText r c t =>
      mapHeadBody s fun b => match b with
        | .table st cells => .table st (cells.set r ((cells.getD r []).set c t))
        | b => b
  | .addPageBreak => pushBlock s .pageBreak

/-- The fresh document created by `Document()`: no blocks, all named styles
with every font attribute unset. -/
def docInit : DocState :=
  { rev := [], styles := fun _ => {}, nextId := 0 }

/-- Run a list of operations from the fresh document. -/
def runOps (ops : List Op) : DocState := ops.foldl applyOp docInit

/-- The blocks of a document in append order. -/
def blocksOf (s : DocState) : List Block := s.rev.reverse

/- ===== Literal content data of the script, transcribed from the source
(python dict lists become structure lists; braces and apostrophes inside
the literals are written with character escapes). ===== -/

def toc_items : List String :=
  ["1. Overview",
   "2. Architecture & Flow",
   "3. Technology Stack",
   "4. How Components Connect",
   "5. Key Annotations Explained",
   "6. Database & ORM Concepts",
   "7. API Endpoints",
   "8. Request-Response Lifecycle"]

def overview_items : List String :=
  ["View all products",
   "View a single product",
   "Upload products with images",
   "Retrieve product images"]

def controller_points : List String :=
  ["Receives HTTP requests (GET, POST, etc.)",
   "Parses request data (path variables, request body, file uploads)",
   "Calls business logic from the Service layer",
   "Sends HTTP responses back (JSON, images, etc.)",
   "Handles HTTP status codes (200 OK, 201 CREATED, 404 NOT FOUND, 500 ERROR)"]

def service_points : List String :=
  ["Receives data from the Controller",
   "Processes the business logic (e.g., converting image file to bytes)",
   "Validates data before saving",
   "Calls the Repository to access the database",
   "Returns processed data back to the Controller"]

def service_methods : List String :=
  ["getAllProducts() → Retrieves all products from database",
   "getProductById(int id) → Retrieves a specific product",
   "addProduct(product, file) → Saves product + converts image to binary"]

def repo_points : List String :=
  ["Extends JpaRepository<Product, Integer>",
   "Provides pre-built methods: findAll(), findById(), save(), delete(), etc.",
   "No need to write SQL queries for basic CRUD operations",
   "Spring automatically generates database queries"]

def jpa_methods : List String :=
  ["save(entity) → INSERT or UPDATE",
   "findAll() → SELECT *",
   "findById(id) → SELECT WHERE id = ?",
   "delete(entity) → DELETE",
   "count() → COUNT(*)",
   "... and many more"]

def model_points : List String :=
  ["Each class with @Entity annotation = one database table",
   "Each field with @Id = primary key",
   "Each private field = one database column",
   "JPA/Hibernate automatically creates/updates the table"]

def db_setup : List String :=
  ["H2 embedded database (in-memory)",
   "URL: jdbc:h2:mem:ecomdb",
   "Automatically creates tables when application starts",
   "Data is lost when application stops"]

/-- One entry of the `dependencies` list (a python dict with keys name/desc). -/
structure Dep where
  name : String
  desc : String

def dependencies : List Dep :=
  [{ name := "spring-boot-starter-data-jpa",
     desc := "Provides JPA (Java Persistence API) interface. Enables Hibernate ORM (Object-Relational Mapping). Converts Java objects to database records." },
   { name := "spring-boot-starter-web",
     desc := "Provides REST API capabilities. Includes embedded Tomcat server. Handles HTTP requests/responses. Makes your application a web server." },
   { name := "spring-boot-devtools",
     desc := "Auto-restarts application when files change. Faster development cycle." },
   { name := "h2 (H2 Database)",
     desc := "Lightweight, in-memory database. Good for learning and testing. Stores your product data." },
   { name := "lombok",
     desc := "Reduces boilerplate Java code. Auto-generates getters, setters, constructors. Annotations: @Data, @AllArgsConstructor, @NoArgsConstructor" }]

def flow_steps : List (String × String) :=
  [("CLIENT sends", "GET http://localhost:8080/api/products"),
   ("TOMCAT SERVLET", "embedded web server receives request"),
   ("SPRING DISPATCHER", "detects @GetMapping(\"/products\")"),
   ("CONTROLLER", "executes: getAllProducts()"),
   ("SERVICE", "executes: getAllProducts() → calls repo.findAll()"),
   ("REPOSITORY", "generates SQL: SELECT * FROM product"),
   ("DATABASE (H2)", "returns: List of all Product records"),
   ("REPOSITORY", "converts SQL results → List<Product> objects"),
   ("SERVICE", "returns this List to Controller"),
   ("CONTROLLER", "wraps in ResponseEntity with HTTP 200 OK"),
   ("SPRING JACKSON", "converts List<Product> → JSON"),
   ("CLIENT", "receives JSON response with all products")]

def flow_steps_2 : List (String × String) :=
  [("CLIENT sends", "POST http://localhost:8080/api/product with FormData (product + imageFile)"),
   ("SPRING MULTIPART HANDLER", "parses the FormData"),
   ("CONTROLLER", "executes: addProduct(Product, MultipartFile)"),
   ("SERVICE", "extracts image metadata (filename, content-type, bytes)"),
   ("SERVICE", "sets image data on Product object"),
   ("SERVICE", "calls repo.save(product)"),
   ("REPOSITORY", "generates SQL: INSERT INTO product (...)"),
   ("DATABASE", "stores the Product record and auto-generates ID"),
   ("REPOSITORY", "returns saved Product object with ID"),
   ("SERVICE", "returns Product to Controller"),
   ("CONTROLLER", "returns ResponseEntity with HTTP 201 CREATED"),
   ("JACKSON", "converts Product to JSON (imageData excluded by @JsonIgnore)"),
   ("CLIENT", "receives HTTP 201 with created product data")]

/-- One entry of the `annotations` list (python dict keys name/code/explanation). -/
structure Ann where
  name : String
  code : String
  explanation : String

def docAnnotations : List Ann :=
  [{ name := "@RestController",
     code := "@RestController\npublic class ProductController \x7b ... \x7d",
     explanation := "Tells Spring: \"This class handles REST API requests\". Every method returns JSON/data automatically (not HTML templates). Combines @Controller + @ResponseBody" },
   { name := "@RequestMapping(\"/api\")",
     code := "@RequestMapping(\"/api\")\npublic class ProductController \x7b ... \x7d",
     explanation := "Base URL prefix for all endpoints in this controller. All endpoints start with /api/. Example: Full URL becomes /api/products" },
   { name := "@CrossOrigin",
     code := "@CrossOrigin\npublic class ProductController \x7b ... \x7d",
     explanation := "Allows requests from different domains/ports. Without this: Frontend on port 3000 cannot call backend on port 8080. CORS = Cross-Origin Resource Sharing" },
   { name := "@GetMapping(\"/products\")",
     code := "@GetMapping(\"/products\")\npublic ResponseEntity<List<Product>> getAllProducts() \x7b ... \x7d",
     explanation := "Maps HTTP GET requests to /api/products to this method. Similar: @PostMapping, @PutMapping, @DeleteMapping" },
   { name := "@PostMapping(value = \"/product\", consumes = \x7b\"multipart/form-data\"\x7d)",
     code := "@PostMapping(value = \"/product\", consumes = \x7b\"multipart/form-data\"\x7d)\npublic ResponseEntity<?> addProduct(...) \x7b ... \x7d",
     explanation := "Maps HTTP POST requests to /api/product. consumes = \x7b\"multipart/form-data\"\x7d means: Accept file uploads (FormData). Without this: Cannot accept image files" },
   { name := "@PathVariable",
     code := "@GetMapping(\"/product/\x7bid\x7d\")\npublic ResponseEntity<Product> getProduct(@PathVariable int id) \x7b ... \x7d",
     explanation := "Extracts URL parameter \x7bid\x7d as a Java variable. Example: /product/5 → id = 5" },
   { name := "@RequestPart",
     code := "@PostMapping(\"/product\")\npublic ResponseEntity<?> addProduct(\n    @RequestPart Product product,\n    @RequestPart MultipartFile imageFile\n) \x7b ... \x7d",
     explanation := "Extracts named form fields from multipart request. @RequestPart Product → Extract form field named \"product\". @RequestPart MultipartFile → Extract file upload named \"imageFile\"" }]

/-- One entry of `entity_annotations` / `service_annotations`
(python dict keys name/explanation). -/
structure NamedNote where
  name : String
  explanation : String

def entity_annotation_items : List NamedNote :=
  [{ name := "@Entity",
     explanation := "Tells JPA: \"This class represents a database table\". Table name = class name (lowercase by default). Product class → product table" },
   { name := "@Id",
     explanation := "Marks this field as PRIMARY KEY. Must be unique for each record. Used to uniquely identify a product." },
   { name := "@GeneratedValue(strategy = GenerationType.IDENTITY)",
     explanation := "Auto-generates ID value when new product is inserted. IDENTITY = Database auto-increment (incrementing numbers). You don\x27t set ID manually; database does it." },
   { name := "@Lob (Large Object)",
     explanation := "Tells JPA: This field stores large binary data. byte[] = array of bytes (binary image data). Stores in BLOB column in database." },
   { name := "@Basic(fetch = FetchType.LAZY)",
     explanation := "LAZY = Don\x27t load this field by default. When you fetch a Product, imageData is NOT loaded (saves memory/bandwidth). Load imageData only when explicitly accessed. Good for large binary data." },
   { name := "@JsonIgnore",
     explanation := "When converting Product to JSON: skip this field. Why: Don\x27t send huge binary data in API response. Instead: Provide separate /image endpoint to download." },
   { name := "@JsonIgnoreProperties",
     explanation := "Ignores Hibernate proxy fields when serializing to JSON. Prevents JSON serialization errors." },
   { name := "@Data (Lombok)",
     explanation := "Auto-generates: getters, setters, toString(), equals(), hashCode(). Reduces boilerplate code. Combines: @Getter + @Setter + @ToString + @EqualsAndHashCode" },
   { name := "@AllArgsConstructor (Lombok)",
     explanation := "Auto-generates constructor with all fields as parameters. Example: new Product(id, name, brand, price, ...)" },
   { name := "@NoArgsConstructor (Lombok)",
     explanation := "Auto-generates empty constructor. Example: new Product()" }]

def service_annotation_items : List NamedNote :=
  [{ name := "@Service",
     explanation := "Tells Spring: \"This is a service class (business logic)\". Spring automatically creates an instance (bean) of this class. Can be injected into other classes." },
   { name := "@Autowired",
     explanation := "Tells Spring: \"Automatically inject an instance of ProductService\". Dependency Injection: Spring finds and provides the object. Don\x27t use new ProductService() manually." }]

def orm_points : List String :=
  ["Product class ↔ product table",
   "Product object ↔ product row",
   "id field ↔ id column",
   "name field ↔ name column",
   "imageData field ↔ image_data column"]

def orm_benefits : List String :=
  ["Write Java code instead of SQL queries",
   "Database agnostic (switch from H2 to MySQL easily)",
   "Automatic type conversion (Java types ↔ SQL types)"]

def hibernate_points : List String :=
  ["Generates SQL queries from your Java code",
   "Converts database records to Java objects",
   "Manages entity lifecycle (new, managed, detached, removed)",
   "Handles relationships between entities"]

def jpa_points : List String :=
  ["JPA = Standard interface/specification (like a contract)",
   "Hibernate = Implementation of JPA (the actual implementation)",
   "Spring Data JPA = Wrapper around Hibernate that makes it even easier"]

/-- The multi-line SQL sample (adjacent python string literals concatenate
into one string). -/
def table_sql_text : String :=
  "CREATE TABLE product (\n    id              INT PRIMARY KEY AUTO_INCREMENT,\n    name            VARCHAR(255),\n    desc            VARCHAR(255),\n    brand           VARCHAR(255),\n    price           DECIMAL(19,2),\n    category        VARCHAR(255),\n    release_date    TIMESTAMP,\n    available       BOOLEAN,\n    quantity        INT,\n    image_name      VARCHAR(255),\n    image_type      VARCHAR(255),\n    image_data      BLOB\n);"

def how_points : List String :=
  ["spring.jpa.hibernate.ddl-auto=update tells Hibernate to automatically create/update tables",
   "Field names map to column names (camelCase → snake_case)"]

def flow1 : List String :=
  ["Controller receives GET request",
   "Calls service.getAllProducts()",
   "Service calls repo.findAll()",
   "Repository generates: SELECT * FROM product",
   "Returns List<Product>",
   "Jackson converts to JSON",
   "Returns HTTP 200 OK with JSON body"]

def flow2 : List String :=
  ["@PathVariable int id extracts 1 from URL",
   "Controller calls service.getProductById(1)",
   "Service calls repo.findById(1)",
   "Repository generates: SELECT * FROM product WHERE id = 1",
   "If found: returns Product object → HTTP 200 OK",
   "If NOT found: returns null → HTTP 404 Not Found"]

def req3_text : String :=
  "POST /api/product HTTP/1.1\nContent-Type: multipart/form-data\n\nFormData:\n- product: \x7b \"name\": \"Laptop\", \"brand\": \"Dell\", \"price\": 79999.99, ... \x7d\n- imageFile: <binary image data>"

def flow3 : List String :=
  ["@RequestPart Product product deserializes JSON → Product object",
   "@RequestPart MultipartFile imageFile receives uploaded file",
   "Controller calls service.addProduct(product, imageFile)",
   "Service extracts image metadata and converts to bytes",
   "Service calls repo.save(product)",
   "Repository generates INSERT query",
   "Database assigns auto-generated ID",
   "Returns saved Product with ID",
   "HTTP 201 CREATED response"]

def flow4 : List String :=
  ["@PathVariable int productId extracts 1 from URL",
   "Controller calls service.getProductById(1)",
   "Service queries database",
   "Controller extracts: product.getImageData() (byte array)",
   "Controller sets HTTP response header: Content-Type: image/jpeg",
   "Returns binary data",
   "Browser displays/downloads image"]

/-- One entry of `lifecycle_steps` (python dict keys step/details). -/
structure LStep where
  step : String
  details : String

def lifecycle_steps : List LStep :=
  [{ step := "CLIENT Sends Request",
     details := "User sends POST /api/product with FormData (product JSON + image file)" },
   { step := "Spring Web Server (Tomcat) Receives Request",
     details := "Tomcat identifies HTTP Method (POST), URL (/api/product), and body (Multipart form data)" },
   { step := "Spring Dispatcher Maps to Controller",
     details := "Spring finds @PostMapping(\"/product\") in ProductController" },
   { step := "Multipart Parser Extracts Data",
     details := "Extracts \"product\" field (JSON deserized to Product object) and \"imageFile\" field (MultipartFile wrapper)" },
   { step := "Controller Method Executes",
     details := "ProductController.addProduct(Product, MultipartFile) calls service.addProduct(product, imageFile)" },
   { step := "Service Layer - Business Logic",
     details := "Extracts filename, content-type, and bytes from file. Sets these on Product. Calls repo.save(product)" },
   { step := "Repository Layer - Database Access",
     details := "Hibernate generates: INSERT INTO product (name, brand, price, image_name, image_type, image_data, ...) VALUES (...)" },
   { step := "Database Execution",
     details := "H2 executes INSERT, auto-generates ID, stores row, returns success" },
   { step := "Return Data to Service",
     details := "Hibernate converts database row to Product Java object with auto-generated ID" },
   { step := "Service Returns to Controller",
     details := "Service returns Product \x7b id: 1, name: \"Laptop\", brand: \"Dell\", ... \x7d" },
   { step := "Controller Wraps Response",
     details := "Controller returns ResponseEntity.status(201).body(savedProduct). HTTP Status: 201 CREATED" },
   { step := "Jackson Serializes to JSON",
     details := "Jackson converts Product object to JSON (imageData excluded by @JsonIgnore)" },
   { step := "HTTP Response Sent to Client",
     details := "HTTP/1.1 201 Created with JSON body" },
   { step := "Client Receives Response",
     details := "Frontend receives HTTP Status 201 with created product data" }]

def request_path : List String :=
  ["HTTP Request",
   "Tomcat (Web Server)",
   "Spring Dispatcher (Router)",
   "Controller (Request Handler)",
   "Service (Business Logic)",
   "Repository (Database Access)",
   "Hibernate (ORM - Object to SQL)",
   "H2 Database (SQL Execution & Storage)",
   "[Data returned back up the chain]",
   "Jackson (Object to JSON)",
   "HTTP Response",
   "Client (Browser/App)"]

def concepts : List (String × String) :=
  [("@RestController", "Handles REST requests"),
   ("@RequestMapping", "URL prefix"),
   ("@GetMapping/@PostMapping", "HTTP method + URL routing"),
   ("@Autowired", "Dependency Injection (automatic wiring)"),
   ("@Entity", "Database table"),
   ("@Id @GeneratedValue", "Primary Key with auto-increment"),
   ("@Lob", "Large binary data (images)"),
   ("@Lazy", "Load data only when needed"),
   ("@JsonIgnore", "Don\x27t include in JSON response"),
   ("JpaRepository", "Pre-built database access methods"),
   ("Service", "Business logic layer"),
   ("DTO", "Data Transfer Object (if needed for specific responses)")]

def next_steps : List String :=
  ["Add a DELETE endpoint (@DeleteMapping) to remove products",
   "Add an UPDATE endpoint (@PutMapping) to modify products",
   "Add custom search methods in ProductRepo to find products by category/brand",
   "Add category filter to getAllProducts for advanced filtering",
   "Implement pagination using Page<Product> instead of List<Product>",
   "Add data validation using @Valid and validation annotations",
   "Create custom exceptions and error handlers for better error management",
   "Add unit tests for service and controller methods",
   "Implement role-based access control (authentication & authorization)",
   "Add API documentation using Swagger/SpringFox"]

/- ===== The script as an operation list, section by section (section
boundaries follow the banner comments of the source; `opsSec5a` ends with
the controller-annotations loop, `opsSec7a` ends with the style-font
assignment on the first request sample, source line 523). ===== -/

/-- `doc.add_paragraph(item, style='List Bullet')`. -/
def bulletOf (item : String) : Op := .addParagraph item (some "List Bullet")

/-- `doc.add_paragraph(item, style='List Number')`. -/
def numberOf (item : String) : Op := .addParagraph item (some "List Number")

def opsSetup : List Op :=
  [.setStyleFontName "Normal" "Calibri",
   .setStyleFontSize "Normal" 11]

def opsTitle : List Op :=
  [.addParagraph "" none,
   .addRun "Spring Boot E-Commerce Backend",
   .setLastRunSize 28,
   .setLastRunBold true,
   .setLastRunColor 0 51 102,
   .setLastParaAlignment .center,
   .addParagraph "" none,
   .addRun "Complete Architecture Guide",
   .setLastRunSize 18,
   .setLastRunItalic true,
   .setLastRunColor 51 102 153,
   .setLastParaAlignment .center,
   .addParagraph "" none]

def opsToc : List Op :=
  [Op.addHeading "Table of Contents" 1]
  ++ toc_items.map bulletOf
  ++ [Op.addPageBreak]

def opsSec1 : List Op :=
  [Op.addHeading "1. Overview" 1,
   .addParagraph "Your project is a REST API backend for an e-commerce application that allows users to:" none]
  ++ overview_items.map bulletOf
  ++ [Op.addParagraph "" none,
   .addParagraph "The architecture follows the Layered/Tier Architecture pattern:" none,
   .addParagraph "" none,
   .addRun "Client (Browser/Mobile App)\n",
   .setLastRunBold true,
   bulletOf "↓",
   .addParagraph "" none,
   .addRun "Controller Layer",
   .setLastRunBold true,
   .addRun " ← Handles HTTP requests/responses",
   bulletOf "↓",
   .addParagraph "" none,
   .addRun "Service Layer",
   .setLastRunBold true,
   .addRun " ← Business logic",
   bulletOf "↓",
   .addParagraph "" none,
   .addRun "Repository Layer",
   .setLastRunBold true,
   .addRun " ← Database access",
   bulletOf "↓",
   .addParagraph "" none,
   .addRun "Database (H2)",
   .setLastRunBold true,
   .addRun " ← Data storage",
   .addPageBreak]

def opsSec2 : List Op :=
  [Op.addHeading "2. Architecture & Flow" 1,
   .addHeading "Layer 1: Controller Layer (ProductController.java)" 2,
   .addHeading "Purpose:" 3,
   .addParagraph "Handle incoming HTTP requests and send responses back to clients." none,
   .addHeading "How it works:" 3]
  ++ controller_points.map bulletOf
  ++ [Op.addHeading "Your Controllers:" 3,
   .addTable 5 2,
   .setTableStyle "Light Grid Accent 1",
   .setCellText 0 0 "HTTP Method & Path",
   .setCellText 0 1 "Purpose",
   .setCellText 1 0 "GET /api/products",
   .setCellText 1 1 "Get all products",
   .setCellText 2 0 "GET /api/product/\x7bid\x7d",
   .setCellText 2 1 "Get single product by ID",
   .setCellText 3 0 "POST /api/product",
   .setCellText 3 1 "Add new product with image",
   .setCellText 4 0 "GET /api/product/\x7bproductId\x7d/image",
   .setCellText 4 1 "Download product image",
   .addParagraph "" none,
   .addHeading "Layer 2: Service Layer (ProductService.java)" 2,
   .addHeading "Purpose:" 3,
   .addParagraph "Contains business logic, data validation, and orchestration." none,
   .addHeading "How it works:" 3]
  ++ service_points.map bulletOf
  ++ [Op.addHeading "Your Service Methods:" 3]
  ++ service_methods.map bulletOf
  ++ [Op.addHeading "Layer 3: Repository Layer (ProductRepo.java)" 2,
   .addHeading "Purpose:" 3,
   .addParagraph "Database access abstraction. Uses Spring Data JPA." none,
   .addHeading "How it works:" 3]
  ++ repo_points.map bulletOf
  ++ [Op.addHeading "What JpaRepository provides (out of the box):" 3]
  ++ jpa_methods.map bulletOf
  ++ [Op.addHeading "Layer 4: Model/Entity Layer (Product.java)" 2,
   .addHeading "Purpose:" 3,
   .addParagraph "Defines the database table structure as a Java class." none,
   .addHeading "How it works:" 3]
  ++ model_points.map bulletOf
  ++ [Op.addHeading "Layer 5: Database (H2 In-Memory)" 2,
   .addHeading "Purpose:" 3,
   .addParagraph "Stores all data persistently (during runtime)." none,
   .addHeading "Current Setup:" 3]
  ++ db_setup.map bulletOf
  ++ [Op.addPageBreak]

def opsSec3 : List Op :=
  [Op.addHeading "3. Technology Stack" 1,
   .addHeading "Dependencies (from pom.xml):" 2]
  ++ (dependencies.map (fun dep =>
        [Op.addParagraph "" none,
         .addRun dep.name,
         .setLastRunBold true,
         bulletOf dep.desc])).flatten
  ++ [Op.addPageBreak]

/-- The body of the enumerated request-flow loops of section 4
(`f'{step_num}. {component}: '` in bold, then the action). -/
def flowStepOps (stepNum : Nat) (component action : String) : List Op :=
  [Op.addParagraph "" none,
   .addRun (toString stepNum ++ ". " ++ component ++ ": "),
   .setLastRunBold true,
   .addRun action]

def opsSec4 : List Op :=
  [Op.addHeading "4. How Components Connect" 1,
   .addHeading "Example 1: GET /api/products Request Flow" 2]
  ++ ((flow_steps.enumFrom 1).map (fun p => flowStepOps p.1 p.2.1 p.2.2)).flatten
  ++ [Op.addParagraph "" none,
   .addHeading "Example 2: POST /api/product Request Flow (with Image Upload)" 2]
  ++ ((flow_steps_2.enumFrom 1).map (fun p => flowStepOps p.1 p.2.1 p.2.2)).flatten
  ++ [Op.addPageBreak]

def opsSec5a : List Op :=
  [Op.addHeading "5. Key Annotations Explained" 1,
   .addHeading "Controller Annotations" 2]
  ++ (docAnnotations.map (fun ann =>
        [Op.addHeading ann.name 3,
         .addParagraph "" none,
         .addRun "Code:",
         .setLastRunBold true,
         bulletOf ann.code,
         .setLastParaStyleFontName "Courier New",
         .addParagraph "" none,
         .addRun "Explanation:",
         .setLastRunBold true,
         bulletOf ann.explanation])).flatten

def opsSec5b : List Op :=
  [Op.addHeading "Entity/Model Annotations" 2]
  ++ (entity_annotation_items.map (fun ann =>
        [Op.addHeading ann.name 3, .addParagraph ann.explanation none])).flatten
  ++ [Op.addHeading "Service Annotations" 2]
  ++ (service_annotation_items.map (fun ann =>
        [Op.addHeading ann.name 3, .addParagraph ann.explanation none])).flatten
  ++ [Op.addHeading "Repository Annotations" 2,
   .addHeading "@Repository" 3,
   .addParagraph "Tells Spring: \"This is a data access object\". Enables automatic SQL generation. <Product, Integer> = Entity type, Primary Key type." none,
   .addPageBreak]

def opsSec6 : List Op :=
  [Op.addHeading "6. Database & ORM Concepts" 1,
   .addHeading "What is ORM (Object-Relational Mapping)?" 2,
   .addParagraph "ORM bridges Java objects and database tables:" none,
   .addParagraph "" none]
  ++ orm_points.map bulletOf
  ++ [Op.addHeading "Benefits:" 3]
  ++ orm_benefits.map bulletOf
  ++ [Op.addHeading "What is Hibernate?" 2,
   .addParagraph "Hibernate is the ORM framework that:" none]
  ++ hibernate_points.map numberOf
  ++ [Op.addHeading "Example:" 3,
   .addParagraph "Instead of writing:" none,
   bulletOf "SELECT * FROM product WHERE id = 1;",
   .setLastParaStyleFontName "Courier New",
   .addParagraph "You write:" none,
   bulletOf "Product product = repo.findById(1).orElse(null);",
   .setLastParaStyleFontName "Courier New",
   .addParagraph "Hibernate generates the SQL for you!" none,
   .addHeading "JPA vs Hibernate:" 2]
  ++ jpa_points.map bulletOf
  ++ [Op.addHeading "Database Table Structure (Auto-generated)" 2,
   .addParagraph "Your Product class creates this table in H2:" none,
   bulletOf table_sql_text,
   .setLastParaStyleFontName "Courier New",
   .addHeading "How:" 3]
  ++ how_points.map bulletOf
  ++ [Op.addPageBreak]

def opsSec7a : List Op :=
  [Op.addHeading "7. API Endpoints" 1,
   .addHeading "Endpoint 1: GET /api/products" 2,
   .addHeading "Purpose:" 3,
   .addParagraph "Retrieve all products" none,
   .addHeading "Request:" 3,
   .addParagraph "GET /api/products HTTP/1.1\nHost: localhost:8080" none,
   .setLastParaStyleFontName "Courier New"]

def opsSec7b : List Op :=
  [Op.addHeading "Response (HTTP 200 OK):" 3,
   .addParagraph "Returns a JSON array of all products with their details (excluding imageData)" none,
   .addHeading "Backend Flow:" 3]
  ++ flow1.map numberOf
  ++ [Op.addHeading "Endpoint 2: GET /api/product/\x7bid\x7d" 2,
   .addHeading "Purpose:" 3,
   .addParagraph "Retrieve a single product by ID" none,
   .addHeading "Request:" 3,
   .addParagraph "GET /api/product/1 HTTP/1.1\nHost: localhost:8080" none,
   .setLastParaStyleFontName "Courier New",
   .addHeading "Response:" 3,
   .addParagraph "HTTP 200 OK: Returns the product as JSON" none,
   .addParagraph "HTTP 404 Not Found: If product does not exist" none,
   .addHeading "Backend Flow:" 3]
  ++ flow2.map numberOf
  ++ [Op.addHeading "Endpoint 3: POST /api/product" 2,
   .addHeading "Purpose:" 3,
   .addParagraph "Add new product with image" none,
   .addHeading "Request:" 3,
   .addParagraph req3_text none,
   .setLastParaStyleFontName "Courier New",
   .addHeading "Response (HTTP 201 CREATED):" 3,
   .addParagraph "Returns created product with auto-generated ID" none,
   .addHeading "Backend Flow:" 3]
  ++ flow3.map numberOf
  ++ [Op.addHeading "Endpoint 4: GET /api/product/\x7bproductId\x7d/image" 2,
   .addHeading "Purpose:" 3,
   .addParagraph "Download product image" none,
   .addHeading "Request:" 3,
   .addParagraph "GET /api/product/1/image HTTP/1.1\nHost: localhost:8080" none,
   .setLastParaStyleFontName "Courier New",
   .addHeading "Response (HTTP 200 OK):" 3,
   .addParagraph "Binary image data with appropriate Content-Type header" none,
   .addHeading "Backend Flow:" 3]
  ++ flow4.map numberOf
  ++ [Op.addPageBreak]

def opsSec8 : List Op :=
  [Op.addHeading "8. Request-Response Lifecycle" 1,
   .addHeading "Complete Lifecycle Example: Create Product with Image" 2]
  ++ ((lifecycle_steps.enumFrom 1).map (fun p =>
        [Op.addParagraph "" none,
         .addRun ("Step " ++ toString p.1 ++ ": " ++ p.2.step),
         .setLastRunBold true,
         .setLastRunSize 12,
         bulletOf p.2.details])).flatten
  ++ [Op.addPageBreak]

def opsSummary : List Op :=
  [Op.addHeading "Summary: How Everything Works Together" 1,
   .addHeading "Request Path (What happens when you call an API):" 2]
  ++ request_path.map bulletOf
  ++ [Op.addHeading "Key Concepts Recap:" 2]
  ++ (concepts.map (fun c =>
        [Op.addParagraph "" none,
         .addRun c.1,
         .setLastRunBold true,
         .addRun (" = " ++ c.2)])).flatten
  ++ [Op.addPageBreak]

def opsNext : List Op :=
  [Op.addHeading "Next Steps for Learning" 1,
   .addParagraph "Now that you understand the architecture, you can enhance your project by implementing:" none]
  ++ next_steps.map numberOf
  ++ [Op.addParagraph "" none,
   .addRun "Your project is now ready for these enhancements!",
   .setLastRunBold true,
   .setLastRunSize 12,
   .setLastRunColor 0 102 0]

/-- Everything up to and including the controller-annotations loop of
section 5 (source lines 8-350). -/
def opsThroughAnnotations : List Op :=
  opsSetup ++ opsTitle ++ opsToc ++ opsSec1 ++ opsSec2 ++ opsSec3 ++ opsSec4 ++ opsSec5a

/-- Everything up to and including source line 523
(`req1.style.font.name = 'Courier New'`). -/
def opsThroughLine523 : List Op :=
  opsThroughAnnotations ++ opsSec5b ++ opsSec6 ++ opsSec7a

/-- The whole assembly, source lines 8-775. -/
def scriptOps : List Op :=
  opsThroughLine523 ++ opsSec7b ++ opsSec8 ++ opsSummary ++ opsNext

/-- The document state right after the controller-annotations loop
(the loop whose body contains source line 345). -/
def docAfterAnnotations : DocState := runOps opsThroughAnnotations

/-- The document state right after source line 523. -/
def docAfterLine523 : DocState := runOps opsThroughLine523

/-- The fully assembled document, as passed to `doc.save`. -/
def finalDoc : DocState := runOps scriptOps

/- ===== Observations on the produced document. ===== -/

/-- The texts of the level-1 headings, in document order. -/
def h1Titles (s : DocState) : List String :=
  (blocksOf s).filterMap fun b =>
    match b.body with
    | .heading t 1 => some t
    | _ => none

/-- The tables of the document, in document order, as (style, cell grid). -/
def tablesOf (s : DocState) : List (Option String × List (List String)) :=
  (blocksOf s).filterMap fun b =>
    match b.body with
    | .table st cells => some (st, cells)
    | _ => none

/-- The number of page-break elements in the document. -/
def pageBreakCount (s : DocState) : Nat :=
  (blocksOf s).countP fun b =>
    match b.body with
    | .pageBreak => true
    | _ => false

/-- The number of explicit page-break insertions in an operation list. -/
def opPageBreakCount (ops : List Op) : Nat :=
  ops.countP fun op =>
    match op with
    | .addPageBreak => true
    | _ => false

/-- Whether a block is the `Table of Contents` level-1 heading. -/
def isTocHeading (b : Block) : Bool :=
  match b.body with
  | .heading t 1 => t == "Table of Contents"
  | _ => false

/-- Whether a block is a page break. -/
def isPageBreak (b : Block) : Bool :=
  match b.body with
  | .pageBreak => true
  | _ => false

/-- The blocks strictly between the `Table of Contents` heading and the
next page break: the table-of-contents entries. -/
def tocSegment (s : DocState) : List Block :=
  ((((blocksOf s).dropWhile fun b => !(isTocHeading b)).drop 1).takeWhile
    fun b => !(isPageBreak b))

/-- A paragraph block described by its style name and concatenated run
text (non-paragraphs described by a pair of empty strings). -/
def blockStyleText (b : Block) : String × String :=
  match b.body with
  | .para st runs _ => (st, String.join (runs.map Run.text))
  | _ => ("", "")

/-- The font name a run renders with: its own font name if set, otherwise
the (current) font name of the named style of its paragraph. -/
def effFontName (s : DocState) (styleName : String) (r : Run) : Option String :=
  match r.font.name with
  | some n => some n
  | none => (s.styles styleName).name

/-- Every run of every paragraph styled `List Bullet` renders with the
font name `Courier New`. -/
def bulletParasRenderCourier (s : DocState) : Bool :=
  s.rev.all fun b =>
    match b.body with
    | .para st runs _ =>
        st != "List Bullet" || runs.all fun r => effFontName s st r == some "Courier New"
    | _ => true

/- ===== The save step and the console output (source lines 777-782). ===== -/

/-- A byte encoding of a block: the serialization input is determined by
the document contents alone. -/
def serializeBlock (b : Block) : List Nat :=
  match b.body with
  | .heading t lvl => 1 :: lvl :: t.toList.map Char.toNat
  | .para st runs _ =>
      2 :: ((st.toList.map Char.toNat) ++ ((runs.map fun r => r.text.toList.map Char.toNat).flatten))
  | .table _ cells =>
      3 :: ((cells.map fun row => (row.map fun c => c.toList.map Char.toNat).flatten).flatten)
  | .pageBreak => [4]

/-- Modelled from the spec: the document-serialization mechanism is the
python-docx library, which is not part of this repository; the spec
stipulates a deterministic serialization, so we model it as a fixed
function of the assembled document. -/
def serialize (d : DocState) : List Nat :=
  ((blocksOf d).map serializeBlock).flatten

/-- A filesystem: the directories that exist (and are writable) and the
files present, as path/contents pairs. -/
structure FS where
  dirs : List String
  files : List (String × List Nat)

/-- The directory part of a Windows path (the text before the final
backslash). -/
def dirOf (p : String) : String :=
  String.mk (((p.toList.reverse.dropWhile fun c => c ≠ '\\').drop 1).reverse)

/-- Replace (or create) the file at a path. -/
def setFile (fs : FS) (path : String) (bytes : List Nat) : FS :=
  { fs with files := (path, bytes) :: fs.files.filter fun e => !(e.1 == path) }

/-- Modelled from the spec: `doc.save(path)` of the underlying document
library (not part of this repository) writes and commits in one step —
if the target directory does not exist and cannot be created the call
raises the underlying write error and no file appears at the path;
otherwise the file at the path is overwritten in one step. -/
def saveDoc (fs : FS) (path : String) (bytes : List Nat) : Except String FS :=
  match fs.dirs.contains (dirOf path) with
  | true => .ok (setFile fs path bytes)
  | false => .error "write error"

/-- The outcome of a run: the final filesystem and the lines printed to
standard output, either after a successful save or after the process
terminated with an unhandled error. -/
inductive RunResult where
  | ok (fs : FS) (printed : List String)
  | err (fs : FS) (msg : String) (printed : List String)

/-- The hard-coded output path (source line 778). -/
def output_path : String :=
  "C:\\Users\\z00542kh\\Desktop\\ecom-proj\\Spring_Boot_Architecture_Guide.docx"

/-- The tail of the script (source lines 777-782): save the document, then
print the two confirmation lines; there is no exception handler, so a
failing save terminates the process before anything is printed, with no
retry and no cleanup. -/
def runScript (fs : FS) : RunResult :=
  match saveDoc fs output_path (serialize finalDoc) with
  | .ok fs2 =>
      .ok fs2 ["Word document created successfully!", "Location: " ++ output_path]
  | .error m => .err fs m []

/- ===== The ambient environment, for the determinism claim. ===== -/

/-- The ambient process environment a run could in principle observe. The
script reads no input at all — no command line, no environment variables,
no clock, no filesystem reads — so the assembly is a constant function of
the environment. -/
structure Env where
  clock : Nat
  cwd : String
  envVars : List (String × String)

/-- The whole generation step as a function of the ambient environment:
the source consults none of it, so the assembled document is the same
constant on every run. -/
def buildScript (_e : Env) : DocState := finalDoc

/- ===== General lemmas about the interpreter. ===== -/

set_option maxRecDepth 100000

set_option maxHeartbeats 4000000

/-- An in-place modification of the most recent block leaves the sequence
numbers of all blocks untouched. -/
theorem mapHeadBody_bids (s : DocState) (f : BlockBody → BlockBody) :
    (mapHeadBody s f).rev.map Block.bid = s.rev.map Block.bid := by
  rcases s with ⟨rev, sty, nid⟩
  cases rev <;> rfl

/-- A style-map assignment through the last paragraph leaves the block
list untouched. -/
theorem setLastParaStyle_rev (s : DocState) (fn : String) :
    (applyOp s (.setLastParaStyleFontName fn)).rev = s.rev := by
  rcases s with ⟨rev, sty, nid⟩
  cases rev with
  | nil => rfl
  | cons b bs =>
      rcases b with ⟨i, body⟩
      cases body <;> rfl

/- ===== The claims. ===== -/

/-- Claim C1: the generation step is deterministic — the assembled
document, and hence its serialization, is the same on any two runs of the
script regardless of the ambient environment, which the script never
consults. -/
theorem generation_step_deterministic :
    ∀ e1 e2 : Env, buildScript e1 = buildScript e2 ∧
      serialize (buildScript e1) = serialize (buildScript e2) :=
  fun _ _ => ⟨rfl, rfl⟩

/-- Claim C2: every operation of the script either appends new block
elements or modifies existing ones in place, never reordering,
deduplicating or removing a previously appended block (the block lists of
successive states extend each other, most recent first); consequently the
saved document lists its blocks exactly in append order: the sequence
numbers stamped at append time read 0, 1, 2, ... in document order. -/
theorem blocks_appear_in_append_order :
    (∀ (s : DocState) (op : Op), ∃ t : List Nat,
        ((applyOp s op).rev.map Block.bid) = t ++ s.rev.map Block.bid)
    ∧ ((blocksOf finalDoc).map Block.bid = List.range (blocksOf finalDoc).length) := by
  constructor
  · intro s op
    cases op with
    | setStyleFontName a b => exact ⟨[], rfl⟩
    | setStyleFontSize a b => exact ⟨[], rfl⟩
    | addHeading a b => exact ⟨[s.nextId], rfl⟩
    | addParagraph a b => exact ⟨[s.nextId], rfl⟩
    | addRun a => exact ⟨[], mapHeadBody_bids _ _⟩
    | setLastRunBold v => exact ⟨[], mapHeadBody_bids _ _⟩
    | setLastRunItalic v => exact ⟨[], mapHeadBody_bids _ _⟩
    | setLastRunSize v => exact ⟨[], mapHeadBody_bids _ _⟩
    | setLastRunColor a b c => exact ⟨[], mapHeadBody_bids _ _⟩
    | setLastParaAlignment a => exact ⟨[], mapHeadBody_bids _ _⟩
    | setLastParaStyleFontName fn =>
        exact ⟨[], by rw [setLastParaStyle_rev, List.nil_append]⟩
    | addTable a b => exact ⟨[s.nextId], rfl⟩
    | setTableStyle a => exact ⟨[], mapHeadBody_bids _ _⟩
    | setCellText a b c => exact ⟨[], mapHeadBody_bids _ _⟩
    | addPageBreak => exact ⟨[s.nextId], rfl⟩
  · rfl

/-- Claim C3: the level-1 headings of the produced document are, in order:
the Table of Contents heading, then the eight numbered section titles
(each exactly once, carrying its `1. `..`8. ` numbering prefix), then the
Summary heading, then the Next Steps heading. -/
theorem level_one_headings_once_in_order :
    h1Titles finalDoc =
      ["Table of Contents",
       "1. Overview",
       "2. Architecture & Flow",
       "3. Technology Stack",
       "4. How Components Connect",
       "5. Key Annotations Explained",
       "6. Database & ORM Concepts",
       "7. API Endpoints",
       "8. Request-Response Lifecycle",
       "Summary: How Everything Works Together",
       "Next Steps for Learning"] := by
  rfl

/-- Claim C4: the produced document contains exactly one table; it has 5
rows of 2 columns, its header row reads `HTTP Method & Path` / `Purpose`,
and its 4 data rows are the 4 literal endpoint/purpose pairs, in order. -/
theorem single_table_contents :
    tablesOf finalDoc =
      [(some "Light Grid Accent 1",
        [["HTTP Method & Path", "Purpose"],
         ["GET /api/products", "Get all products"],
         ["GET /api/product/\x7bid\x7d", "Get single product by ID"],
         ["POST /api/product", "Add new product with image"],
         ["GET /api/product/\x7bproductId\x7d/image", "Download product image"]])]
    ∧ ((tablesOf finalDoc).map fun e => (e.2.length, e.2.map List.length)) =
        [(5, [2, 2, 2, 2, 2])] := by
  exact ⟨rfl, rfl⟩

/-- Claim C5: the blocks between the `Table of Contents` heading and the
following page break are exactly 8 paragraphs, all styled `List Bullet`,
reading `1. Overview` through `8. Request-Response Lifecycle` in order. -/
theorem toc_entries_eight_in_order :
    (tocSegment finalDoc).map blockStyleText =
      [("List Bullet", "1. Overview"),
       ("List Bullet", "2. Architecture & Flow"),
       ("List Bullet", "3. Technology Stack"),
       ("List Bullet", "4. How Components Connect"),
       ("List Bullet", "5. Key Annotations Explained"),
       ("List Bullet", "6. Database & ORM Concepts"),
       ("List Bullet", "7. API Endpoints"),
       ("List Bullet", "8. Request-Response Lifecycle")] := by
  rfl

/-- Claim C6: the script performs exactly 10 explicit page-break
insertions, and the produced document contains exactly that many
page-break elements. -/
theorem page_break_count_ten :
    opPageBreakCount scriptOps = 10 ∧ pageBreakCount finalDoc = 10 := by
  exact ⟨rfl, rfl⟩

/-- Claim C7: when the save step fails because the output directory does
not exist and cannot be created, the run terminates with the underlying
write error, the filesystem is returned unchanged (no partial file at the
intended path, no cleanup, no retry), and the two confirmation lines are
not printed. -/
theorem save_failure_terminates_without_output (fs : FS)
    (h : fs.dirs.contains (dirOf output_path) = false) :
    runScript fs = RunResult.err fs "write error" [] := by
  unfold runScript saveDoc
  rw [h]

/-- Concrete instance of the save-failure claim: on an empty filesystem
(no directories at all) the run errors out with nothing printed and no
file created. -/
theorem save_failure_witness :
    runScript { dirs := [], files := [] } =
      RunResult.err { dirs := [], files := [] } "write error" [] :=
  save_failure_terminates_without_output { dirs := [], files := [] } rfl

/-- Claim C8: on a successful run the program produces exactly the two
fixed confirmation lines on standard output, in order, and only in the
branch where the save has completed (the result carries the post-save
filesystem). -/
theorem success_prints_exactly_two_lines (fs : FS)
    (h : fs.dirs.contains (dirOf output_path) = true) :
    runScript fs =
      RunResult.ok (setFile fs output_path (serialize finalDoc))
        ["Word document created successfully!", "Location: " ++ output_path] := by
  unfold runScript saveDoc
  rw [h]

/-- Concrete instance of the success-output claim: with the output
directory present, the run saves the file and prints exactly the two
confirmation lines. -/
theorem success_prints_witness :
    runScript { dirs := ["C:\\Users\\z00542kh\\Desktop\\ecom-proj"], files := [] } =
      RunResult.ok
        (setFile { dirs := ["C:\\Users\\z00542kh\\Desktop\\ecom-proj"], files := [] }
          output_path (serialize finalDoc))
        ["Word document created successfully!", "Location: " ++ output_path] :=
  success_prints_exactly_two_lines
    { dirs := ["C:\\Users\\z00542kh\\Desktop\\ecom-proj"], files := [] } (by decide)

/-- Claim C9: the single declared table has every one of its cells filled
with nonempty text by the script, so no cell renders empty. -/
theorem all_table_cells_filled :
    (tablesOf finalDoc).length = 1
    ∧ ((tablesOf finalDoc).all fun e =>
        e.2.all fun row => row.all fun c => !(c == "")) = true := by
  exact ⟨rfl, rfl⟩

/-- Claim C10: assigning to a paragraph's `.style.font.name` mutates the
shared named style: right after source line 523 (the assignment through
the plain-styled `req1` paragraph) the document-wide `Normal` style font
is `Courier New`, overwriting the `Calibri` set at program start, and it
stays so in the saved document; likewise the controller-annotations loop
(source line 345) sets the `List Bullet` style font to `Courier New`, so
every `List Bullet` paragraph of the saved document renders in
`Courier New` — the Calibri default set at the start does not survive. -/
theorem style_mutation_overrides_default_font :
    (docAfterLine523.styles "Normal").name = some "Courier New"
    ∧ (finalDoc.styles "Normal").name = some "Courier New"
    ∧ (finalDoc.styles "Normal").name ≠ some "Calibri"
    ∧ (docAfterAnnotations.styles "List Bullet").name = some "Courier New"
    ∧ (finalDoc.styles "List Bullet").name = some "Courier New"
    ∧ bulletParasRenderCourier finalDoc = true := by
  refine ⟨rfl, rfl, by decide, rfl, rfl, rfl⟩
